import Mathlib

/-!
Verification of the interaction-state / reducer-pipeline core of the
sigma4react-storybook examples.

The definitions below are a shallow embedding of
`examples/core-library/features_showcases/node-edge-reducers.tsx`
(interaction state, node reducer, edge reducer, search and hover handlers)
and of the overlay-synchronization logic of
`examples/core-library/advanced_use_cases/cluster-label.tsx`.

Modelling conventions:
* JavaScript `string | undefined` fields become `Option String`; JS truthiness
  is modelled explicitly (`undefined` and `""` are falsy; a `Set` object is
  truthy even when empty).
* A JS `Set<string>` becomes a `List String` queried with `contains`.
* graphology operations that throw (`extremities`, `source`, `target`,
  `areNeighbors` on a missing first node) return `Except String _`.
* The graph built by `new Graph(); graph.import(...)` is queried only through
  direction-insensitive operations (`neighbors`, `areNeighbors`), modelled by
  symmetric adjacency over the edge list.
-/

namespace SigmaExamples

/-- Display data of a node (the subset of sigma's `NodeDisplayData` the
examples read or write). -/
structure NodeData where
  x : Int
  y : Int
  size : Int
  label : String
  color : String
  hidden : Bool
  highlighted : Bool
  forceLabel : Bool
deriving DecidableEq, Repr

/-- Display data of an edge (the subset of sigma's `EdgeDisplayData` the
examples read or write). -/
structure EdgeData where
  size : Int
  color : String
  hidden : Bool
deriving DecidableEq, Repr

/-- The `State` interface of `node-edge-reducers.tsx`:
`searchQuery: string; hoveredNode?: string; selectedNode?: string;
suggestions?: Set<string>; hoveredNeighbors?: Set<string>`. -/
structure State where
  searchQuery : String
  hoveredNode : Option String
  selectedNode : Option String
  suggestions : Option (List String)
  hoveredNeighbors : Option (List String)
deriving DecidableEq, Repr

/-- The initial state `{ searchQuery: "" }`. -/
def State.init : State :=
  { searchQuery := ""
    hoveredNode := none
    selectedNode := none
    suggestions := none
    hoveredNeighbors := none }

/-- The graph data store: node id ↦ attributes, and edges as
(edge key, source id, target id). -/
structure Graph where
  nodes : List (String × NodeData)
  edges : List (String × String × String)
deriving DecidableEq, Repr

/-- `graph.hasNode(n)`. -/
def Graph.hasNode (g : Graph) (n : String) : Bool :=
  g.nodes.any (fun p => p.1 == n)

/-- Direction-insensitive adjacency: `m` occurs among the (in/out) neighbors
of `n`. -/
def Graph.adjacent (g : Graph) (n m : String) : Bool :=
  g.edges.any (fun e => (e.2.1 == n && e.2.2 == m) || (e.2.1 == m && e.2.2 == n))

/-- `graph.neighbors(n)`: all nodes adjacent to `n`. -/
def Graph.neighbors (g : Graph) (n : String) : List String :=
  g.edges.filterMap (fun e =>
    if e.2.1 == n then some e.2.2
    else if e.2.2 == n then some e.2.1
    else none)

/-- `graph.areNeighbors(n, m)`: graphology throws when the first node is not
in the graph, and otherwise reports adjacency (a missing second node simply
yields `false`). -/
def Graph.areNeighbors (g : Graph) (n m : String) : Except String Bool :=
  if g.hasNode n then .ok (g.adjacent n m) else .error "areNeighbors: node not found"

/-- Look up an edge by key. -/
def Graph.findEdge (g : Graph) (e : String) : Option (String × String) :=
  (g.edges.find? (fun p => p.1 == e)).map (fun p => p.2)

/-- `graph.extremities(e)`: `[source, target]`, throwing on a missing edge. -/
def Graph.extremities (g : Graph) (e : String) : Except String (List String) :=
  match g.findEdge e with
  | some st => .ok [st.1, st.2]
  | none => .error "extremities: edge not found"

/-- `graph.source(e)`, throwing on a missing edge. -/
def Graph.sourceOf (g : Graph) (e : String) : Except String String :=
  match g.findEdge e with
  | some st => .ok st.1
  | none => .error "source: edge not found"

/-- `graph.target(e)`, throwing on a missing edge. -/
def Graph.targetOf (g : Graph) (e : String) : Except String String :=
  match g.findEdge e with
  | some st => .ok st.2
  | none => .error "target: edge not found"

/-- The node reducer installed by `node-edge-reducers.tsx` (lines 231–255):

```
const res = { ...data };
if (state.hoveredNeighbors && !state.hoveredNeighbors.has(node)
    && state.hoveredNode !== node) { res.label = ""; res.color = "#f6f6f6"; }
if (state.selectedNode === node) { res.highlighted = true; }
else if (state.suggestions) {
  if (state.suggestions.has(node)) { res.forceLabel = true; }
  else { res.label = ""; res.color = "#f6f6f6"; } }
return res;
```

Note `state.hoveredNeighbors` is truthy whenever it is a `Set`, even an empty
one, and `state.selectedNode === node` compares an `Option` against a plain
string. -/
def nodeReducer (st : State) (node : String) (data : NodeData) : NodeData :=
  let res := data
  let res :=
    match st.hoveredNeighbors with
    | some hn =>
      if !hn.contains node && st.hoveredNode != some node then
        { res with label := "", color := "#f6f6f6" }
      else res
    | none => res
  if st.selectedNode == some node then
    { res with highlighted := true }
  else
    match st.suggestions with
    | some sugg =>
      if sugg.contains node then
        { res with forceLabel := true }
      else
        { res with label := "", color := "#f6f6f6" }
    | none => res

/-- `graph.extremities(edge).every(n => n === hovered || graph.areNeighbors(n, hovered))`
with JS short-circuiting: `areNeighbors` is not called when `n === hovered`,
and the iteration stops at the first `false`. -/
def everyExtremityNear (g : Graph) (hov : String) : List String → Except String Bool
  | [] => .ok true
  | n :: rest =>
    if n == hov then everyExtremityNear g hov rest
    else do
      let b ← g.areNeighbors n hov
      if b then everyExtremityNear g hov rest else .ok false

/-- The edge reducer installed by `node-edge-reducers.tsx` (lines 263–283):

```
const res = { ...data };
if (state.hoveredNode &&
    !graph.extremities(edge).every(n => n === state.hoveredNode
        || graph.areNeighbors(n, state.hoveredNode))) { res.hidden = true; }
if (state.suggestions &&
    (!state.suggestions.has(graph.source(edge))
     || !state.suggestions.has(graph.target(edge)))) { res.hidden = true; }
return res;
```

`state.hoveredNode` is truthy only when defined and non-empty;
`state.suggestions` is truthy whenever it is a `Set`, even an empty one. -/
def edgeReducer (g : Graph) (st : State) (edge : String) (data : EdgeData) :
    Except String EdgeData := do
  let res := data
  let res ←
    match st.hoveredNode with
    | some hov =>
      if hov == "" then pure res
      else do
        let ns ← g.extremities edge
        let ev ← everyExtremityNear g hov ns
        if !ev then pure { res with hidden := true } else pure res
    | none => pure res
  match st.suggestions with
  | some sugg => do
    let s ← g.sourceOf edge
    if !sugg.contains s then
      pure { res with hidden := true }
    else do
      let t ← g.targetOf edge
      if !sugg.contains t then
        pure { res with hidden := true }
      else
        pure res
  | none => pure res

/-- `query.toLowerCase()` (ASCII case folding, as for the example's label
data). -/
def lcString (s : String) : String :=
  String.mk (s.data.map Char.toLower)

/-- JS `haystack.includes(needle)`: contiguous-substring test. -/
def listIncludes (needle : List Char) : List Char → Bool
  | [] => needle.isEmpty
  | c :: rest => needle.isPrefixOf (c :: rest) || listIncludes needle rest

/-- JS `haystack.includes(needle)` on strings. -/
def strIncludes (haystack needle : String) : Bool :=
  listIncludes needle.data haystack.data

/-- The nodes whose label contains the query case-insensitively
(`matchingNodes` in `handleSearchQuery`). -/
def matchingNodes (g : Graph) (lcQuery : String) : List (String × NodeData) :=
  g.nodes.filter (fun p => strIncludes (lcString p.2.label) lcQuery)

/-- `handleSearchQuery` (lines 168–202). Returns the updated state
(`setState(prev => ({ ...prev, ...newState }))` — `newState` always carries
the keys `searchQuery`, `selectedNode` and `suggestions`, and never the hover
keys) together with the camera-animation target, if any: the display position
of the selected node (`sigma.getNodeDisplayData`, modelled as the node's
stored coordinates). -/
def handleSearchQuery (g : Graph) (prev : State) (query : String) :
    State × Option (Int × Int) :=
  if query != "" then
    let lcQuery := lcString query
    let matching := matchingNodes g lcQuery
    match matching with
    | [m] =>
      if m.2.label == query then
        ({ prev with
            searchQuery := query
            selectedNode := some m.1
            suggestions := none },
         some (m.2.x, m.2.y))
      else
        ({ prev with
            searchQuery := query
            selectedNode := none
            suggestions := some (matching.map (fun p => p.1)) },
         none)
    | _ =>
      ({ prev with
          searchQuery := query
          selectedNode := none
          suggestions := some (matching.map (fun p => p.1)) },
       none)
  else
    ({ prev with
        searchQuery := query
        selectedNode := none
        suggestions := none },
     none)

/-- `handleHoveredNode` (lines 205–219). `if (node)` is JS truthiness: an
absent or empty id clears the hover axis. -/
def handleHoveredNode (g : Graph) (prev : State) (node : Option String) : State :=
  match node with
  | some n =>
    if n != "" then
      { prev with
          hoveredNode := some n
          hoveredNeighbors := some (g.neighbors n) }
    else
      { prev with hoveredNode := none, hoveredNeighbors := none }
  | none => { prev with hoveredNode := none, hoveredNeighbors := none }

/-! ### Overlay synchronizer (`cluster-label.tsx`) -/

/-- The rendering engine's camera state `{x, y, zoomRatio, angle}`. -/
structure Camera where
  x : Int
  y : Int
  zoomR : Int
  angle : Int
deriving DecidableEq, Repr

/-- Events the `ClusterLabels` component can observe: a camera-state mutation
(performed by the rendering engine), or the `afterRender` post-render signal
the component subscribes `updateLabelPositions` to. -/
inductive CamEvent where
  | mutate (c : Camera)
  | render
deriving DecidableEq, Repr

/-- State of the overlay synchronizer: the engine's current camera, the
published `labelPositions` map, and (for bookkeeping the temporal claim) the
log of camera states used by successive recomputes. -/
structure OverlayState where
  camera : Camera
  labelPositions : List (String × Int × Int)
  recomputeLog : List Camera
deriving DecidableEq, Repr

/-- `updateLabelPositions` (lines 168–179): recomputes every cluster anchor's
screen position through `sigma.graphToViewport`, which reads the live camera.
`g2v` is the engine's world→screen transform, `anchors` the cluster
barycenters `(clusterId, worldX, worldY)`. -/
def updateLabelPositions (g2v : Camera → Int × Int → Int × Int)
    (anchors : List (String × Int × Int)) (s : OverlayState) : OverlayState :=
  { s with
      labelPositions := anchors.map (fun a => (a.1, g2v s.camera a.2))
      recomputeLog := s.recomputeLog ++ [s.camera] }

/-- One observed event: a camera mutation only moves the camera (the
component has no camera listener); an `afterRender` signal runs
`updateLabelPositions` (lines 182–191 register exactly that). -/
def overlayStep (g2v : Camera → Int × Int → Int × Int)
    (anchors : List (String × Int × Int)) (s : OverlayState) :
    CamEvent → OverlayState
  | .mutate c => { s with camera := c }
  | .render => updateLabelPositions g2v anchors s

/-- Process a whole event trace. -/
def overlayRun (g2v : Camera → Int × Int → Int × Int)
    (anchors : List (String × Int × Int)) (s : OverlayState)
    (evs : List CamEvent) : OverlayState :=
  evs.foldl (overlayStep g2v anchors) s

/-- The camera after a sequence of mutations starting from `base`. -/
def lastCam (base : Camera) : List Camera → Camera
  | [] => base
  | c :: ms => lastCam c ms

/-! ### Characterization of the node reducer -/

/-- The condition of the hover-dimming rule (line 235):
`state.hoveredNeighbors && !state.hoveredNeighbors.has(node) && state.hoveredNode !== node`. -/
def hoverDimB (st : State) (node : String) : Bool :=
  match st.hoveredNeighbors with
  | some hn => !hn.contains node && st.hoveredNode != some node
  | none => false

/-- The condition under which the suggestion rule dims a node (lines 244–251):
the node is not selected, a suggestion set exists, and the node is outside it. -/
def suggDimB (st : State) (node : String) : Bool :=
  st.selectedNode != some node &&
    (match st.suggestions with
     | some sugg => !sugg.contains node
     | none => false)

/-- The condition under which the suggestion rule forces a node's label. -/
def suggForceB (st : State) (node : String) : Bool :=
  st.selectedNode != some node &&
    (match st.suggestions with
     | some sugg => sugg.contains node
     | none => false)

/-! ### Characterization of the edge reducer -/

/-- The condition of the edge hover rule (lines 267–272): the hovered id is
truthy and not every extremity is the hovered node or adjacent to it. -/
def hoverHideB (g : Graph) (st : State) (s t : String) : Bool :=
  match st.hoveredNode with
  | some hov =>
    hov != "" && !((s == hov || g.adjacent s hov) && (t == hov || g.adjacent t hov))
  | none => false

/-- The condition of the edge suggestion rule (lines 275–280): a suggestion
set exists and some endpoint is outside it. -/
def suggHideB (st : State) (s t : String) : Bool :=
  match st.suggestions with
  | some sugg => !sugg.contains s || !sugg.contains t
  | none => false

/-! ### Decomposition of the edge reducer into data-independent checks -/

/-- The hover hide check of the edge reducer, isolated from the display data
it writes. -/
def hoverCheck (g : Graph) (st : State) (edge : String) : Except String Bool :=
  match st.hoveredNode with
  | some hov =>
    if hov == "" then .ok false
    else do
      let ns ← g.extremities edge
      let ev ← everyExtremityNear g hov ns
      pure (!ev)
  | none => .ok false

/-- The suggestion hide check of the edge reducer, isolated from the display
data it writes. -/
def suggCheck (g : Graph) (st : State) (edge : String) : Except String Bool :=
  match st.suggestions with
  | some sugg => do
    let s ← g.sourceOf edge
    if !sugg.contains s then pure true
    else do
      let t ← g.targetOf edge
      pure (!sugg.contains t)
  | none => .ok false

/-! ### Concrete fixtures -/

/-- Node attributes for the fixture graph (labels follow Scenario B of the
spec: Alice, Bob, Alan). -/
def nAlice : NodeData :=
  { x := 10, y := 20, size := 5, label := "Alice", color := "#ff0000",
    hidden := false, highlighted := false, forceLabel := false }

def nBob : NodeData :=
  { x := -3, y := 7, size := 4, label := "Bob", color := "#00ff00",
    hidden := false, highlighted := false, forceLabel := false }

def nAlan : NodeData :=
  { x := 0, y := 1, size := 3, label := "Alan", color := "#0000ff",
    hidden := false, highlighted := false, forceLabel := false }

def nSolo : NodeData :=
  { x := 9, y := 9, size := 2, label := "Solo", color := "#123456",
    hidden := false, highlighted := false, forceLabel := false }

/-- Fixture graph: path n1 — n2 — n3 plus the isolated node n4. -/
def gFix : Graph :=
  { nodes := [("n1", nAlice), ("n2", nBob), ("n3", nAlan), ("n4", nSolo)]
    edges := [("e1", "n1", "n2"), ("e2", "n2", "n3")] }

/-- The fixture graph after the entity `n1` (and its incident edge) has been
removed from the data store. -/
def gRem : Graph :=
  { nodes := [("n2", nBob), ("n3", nAlan), ("n4", nSolo)]
    edges := [("e2", "n2", "n3")] }

/-- Base edge display data used in the examples below. -/
def deFix : EdgeData := { size := 2, color := "#999", hidden := false }

/-- State after hovering `n1` on the fixture graph. -/
def stHoverN1 : State := handleHoveredNode gFix State.init (some "n1")

/-- State after hovering the isolated node `n4` on the fixture graph. -/
def stHoverSolo : State := handleHoveredNode gFix State.init (some "n4")

/-- State after searching for `"zzz"` (a query with no matches). -/
def stNoMatch : State := (handleSearchQuery gFix State.init "zzz").1

/-- State after searching for `"al"` (Scenario B: matches Alice and Alan). -/
def stAl : State := (handleSearchQuery gFix State.init "al").1

/-- The output of the edge reducer on `e2` while `n1` is hovered. -/
def rFix : EdgeData := { size := 2, color := "#999", hidden := true }

/-- Hover state for `n1` together with a selection of `n3`. -/
def stHovSel : State := { stHoverN1 with selectedNode := some "n3" }

/-- A state whose hover AND selection still reference `n1` after `n1` was
removed from the data store (`gRem`). -/
def stStaleFull : State := { stHoverN1 with selectedNode := some "n1" }

/-- The "single perfect match" test of `handleSearchQuery` (line 179):
exactly one node label contains the query case-insensitively and that label
equals the query (case-sensitively). -/
def isPerfectMatch (g : Graph) (query : String) : Bool :=
  match matchingNodes g (lcString query) with
  | [m] => m.2.label == query
  | _ => false

/-- A state with an existing selection, used to show that a search clears
it. -/
def stSel3 : State := { State.init with selectedNode := some "n3" }

/-- Closed form of the node reducer, field by field. -/
theorem nodeReducer_eq (st : State) (node : String) (data : NodeData) :
    nodeReducer st node data =
      { data with
          label := if hoverDimB st node || suggDimB st node then "" else data.label
          color := if hoverDimB st node || suggDimB st node then "#f6f6f6" else data.color
          highlighted := if st.selectedNode == some node then true else data.highlighted
          forceLabel := if suggForceB st node then true else data.forceLabel } := by
  unfold nodeReducer hoverDimB suggDimB suggForceB
  cases st.hoveredNeighbors <;> cases st.suggestions <;> split_ifs <;> simp_all <;>
    (try (split_ifs <;> simp_all))

/-- Reduction of `Except` bind on a success value. -/
theorem exceptBindOk {α β ε : Type} (a : α) (f : α → Except ε β) :
    ((Except.ok a : Except ε α) >>= f) = f a := rfl

/-- Reduction of `Except` bind on an error value. -/
theorem exceptBindErr {α β ε : Type} (e : ε) (f : α → Except ε β) :
    ((Except.error e : Except ε α) >>= f) = Except.error e := rfl

/-- `pure` on `Except` is `ok`. -/
theorem exceptPureOk {α ε : Type} (a : α) :
    (pure a : Except ε α) = Except.ok a := rfl

/-- Evaluating the `every` test on the two extremities of an edge whose
endpoints are nodes of the graph never throws. -/
theorem everyExtremityNear_pair (g : Graph) (hov s t : String)
    (hs : g.hasNode s = true) (ht : g.hasNode t = true) :
    everyExtremityNear g hov [s, t] =
      .ok ((s == hov || g.adjacent s hov) && (t == hov || g.adjacent t hov)) := by
  cases hse : s == hov <;> cases hte : t == hov <;>
    cases has : g.adjacent s hov <;> cases hat : g.adjacent t hov <;>
      simp [everyExtremityNear, Graph.areNeighbors, hs, ht, hse, hte, has, hat] <;> rfl

/-- Closed form of the edge reducer on an edge present in the graph whose
endpoints are nodes of the graph: it never throws, only the `hidden` flag is
written, and it is set exactly by the two hide rules. -/
theorem edgeReducer_eq (g : Graph) (st : State) (edge : String) (data : EdgeData)
    (s t : String) (he : g.findEdge edge = some (s, t))
    (hs : g.hasNode s = true) (ht : g.hasNode t = true) :
    edgeReducer g st edge data =
      .ok { data with
              hidden := hoverHideB g st s t || suggHideB st s t || data.hidden } := by
  unfold edgeReducer hoverHideB suggHideB
  unfold Graph.extremities Graph.sourceOf Graph.targetOf
  rw [he]
  cases hh : st.hoveredNode with
  | none =>
    cases hsg : st.suggestions with
    | none => rfl
    | some sugg =>
      by_cases hcs : s ∈ sugg <;> by_cases hct : t ∈ sugg <;>
        simp [hcs, hct, exceptBindOk, exceptPureOk]
  | some hov =>
    have hpair := everyExtremityNear_pair g hov s t hs ht
    cases hhe : hov == "" <;>
      cases hev : ((s == hov || g.adjacent s hov) && (t == hov || g.adjacent t hov)) <;>
      · rw [hev] at hpair
        simp only [exceptBindOk, exceptPureOk, hpair, hhe, bne]
        rw [hev]
        cases hsg : st.suggestions with
        | none => simp
        | some sugg =>
          by_cases hcs : s ∈ sugg <;> by_cases hct : t ∈ sugg <;>
            simp [hcs, hct]

/-- A run over mutation events only moves the camera: no recompute happens
and no positions are published. -/
theorem overlayRun_mutations (g2v : Camera → Int × Int → Int × Int)
    (anchors : List (String × Int × Int)) (s : OverlayState) (ms : List Camera) :
    overlayRun g2v anchors s (ms.map CamEvent.mutate) =
      { s with camera := lastCam s.camera ms } := by
  induction ms generalizing s with
  | nil => rfl
  | cons c rest ih =>
    show overlayRun g2v anchors { s with camera := c } (rest.map CamEvent.mutate) = _
    rw [ih]
    rfl

/-- Splitting a run at an append. -/
theorem overlayRun_append (g2v : Camera → Int × Int → Int × Int)
    (anchors : List (String × Int × Int)) (s : OverlayState)
    (l1 l2 : List CamEvent) :
    overlayRun g2v anchors s (l1 ++ l2) =
      overlayRun g2v anchors (overlayRun g2v anchors s l1) l2 := by
  unfold overlayRun
  rw [List.foldl_append]

/-- The edge reducer is the two checks followed by a single write of the
`hidden` flag; the checks do not depend on the incoming display data. -/
theorem edgeReducer_decompose (g : Graph) (st : State) (edge : String)
    (data : EdgeData) :
    edgeReducer g st edge data =
      (do
        let h1 ← hoverCheck g st edge
        let h2 ← suggCheck g st edge
        pure { data with hidden := h1 || h2 || data.hidden }) := by
  unfold edgeReducer hoverCheck suggCheck
  cases hh : st.hoveredNode with
  | none =>
    cases hsg : st.suggestions with
    | none => cases data; simp [exceptBindOk, exceptPureOk]
    | some sugg =>
      cases hsrc : g.sourceOf edge with
      | error e => simp [exceptBindOk, exceptBindErr, hsrc]
      | ok s =>
        by_cases hcs : s ∈ sugg
        · cases htg : g.targetOf edge with
          | error e => simp [exceptBindOk, exceptBindErr, hsrc, htg, hcs]
          | ok t =>
            by_cases hct : t ∈ sugg <;>
            · cases data
              simp [exceptBindOk, exceptPureOk, hsrc, htg, hcs, hct]
        · cases data
          simp [exceptBindOk, exceptPureOk, hsrc, hcs]
  | some hov =>
    by_cases hhe : hov = ""
    · cases hsg : st.suggestions with
      | none => cases data; simp [exceptBindOk, exceptPureOk, hhe]
      | some sugg =>
        cases hsrc : g.sourceOf edge with
        | error e => simp [exceptBindOk, exceptBindErr, hhe, hsrc]
        | ok s =>
          by_cases hcs : s ∈ sugg
          · cases htg : g.targetOf edge with
            | error e => simp [exceptBindOk, exceptBindErr, exceptPureOk, hhe, hsrc, htg, hcs]
            | ok t =>
              by_cases hct : t ∈ sugg <;>
              · cases data
                simp [exceptBindOk, exceptPureOk, hhe, hsrc, htg, hcs, hct]
          · cases data
            simp [exceptBindOk, exceptPureOk, hhe, hsrc, hcs]
    · cases hext : g.extremities edge with
      | error e => simp [exceptBindOk, exceptBindErr, hhe, hext]
      | ok ns =>
        cases hev : everyExtremityNear g hov ns with
        | error e => simp [exceptBindOk, exceptBindErr, hhe, hext, hev]
        | ok ev =>
          cases ev <;>
          · cases hsg : st.suggestions with
            | none => cases data; simp [exceptBindOk, exceptPureOk, hhe, hext, hev]
            | some sugg =>
              cases hsrc : g.sourceOf edge with
              | error e =>
                simp [exceptBindOk, exceptBindErr, exceptPureOk, hhe, hext, hev, hsrc]
              | ok s =>
                by_cases hcs : s ∈ sugg
                · cases htg : g.targetOf edge with
                  | error e =>
                    simp [exceptBindOk, exceptBindErr, exceptPureOk, hhe, hext, hev, hsrc, htg, hcs]
                  | ok t =>
                    by_cases hct : t ∈ sugg <;>
                    · cases data
                      simp [exceptBindOk, exceptPureOk, hhe, hext, hev, hsrc, htg, hcs, hct]
                · cases data
                  simp [exceptBindOk, exceptPureOk, hhe, hext, hev, hsrc, hcs]

/-! ### Claims -/

/-- C1: for every fixed pair of a graph data snapshot and an interaction
state, invoking the node reducer and the edge reducer twice on the same
entity yields attribute-value-identical output both times; moreover,
re-invoking a reducer on its own output returns that output unchanged (the
pipeline is idempotent). -/
theorem claim1_reducers_idempotent (g : Graph) (st : State) (node edge : String)
    (dn : NodeData) (de : EdgeData) :
    nodeReducer st node dn = nodeReducer st node dn
    ∧ edgeReducer g st edge de = edgeReducer g st edge de
    ∧ nodeReducer st node (nodeReducer st node dn) = nodeReducer st node dn
    ∧ (∀ r : EdgeData, edgeReducer g st edge de = .ok r →
        edgeReducer g st edge r = .ok r) := by
  refine ⟨rfl, rfl, ?_, ?_⟩
  · simp only [nodeReducer_eq]
    split_ifs <;> simp
  · intro r h
    rw [edgeReducer_decompose] at h
    rw [edgeReducer_decompose]
    cases hc1 : hoverCheck g st edge with
    | error e =>
      simp only [hc1, exceptBindErr] at h
      exact Except.noConfusion h
    | ok h1 =>
      simp only [hc1, exceptBindOk] at h ⊢
      cases hc2 : suggCheck g st edge with
      | error e =>
        simp only [hc2, exceptBindErr] at h
        exact Except.noConfusion h
      | ok h2 =>
        simp only [hc2, exceptBindOk, exceptPureOk] at h ⊢
        cases h
        cases h1 <;> cases h2 <;> simp

/-- Witness for C1 at a concrete input: hovering `n1` hides `e2`, and
re-running the edge reducer on the hidden output reproduces it. -/
theorem claim1_witness :
    edgeReducer gFix stHoverN1 "e2" deFix = .ok rFix
    ∧ edgeReducer gFix stHoverN1 "e2" rFix = .ok rFix :=
  ⟨by rfl,
   (claim1_reducers_idempotent gFix stHoverN1 "n3" "e2" nAlan deFix).2.2.2 rFix
     (by rfl)⟩

/-- C2: any number of camera-state mutations between two consecutive
post-render signals collapse into exactly one recompute of all anchor screen
positions, performed at the second signal with the camera state as of that
signal — never an intermediate one. -/
theorem claim2_overlay_coalescing (g2v : Camera → Int × Int → Int × Int)
    (anchors : List (String × Int × Int)) (s : OverlayState) (ms : List Camera) :
    overlayRun g2v anchors s
        (CamEvent.render :: (ms.map CamEvent.mutate ++ [CamEvent.render])) =
      { camera := lastCam s.camera ms
        labelPositions := anchors.map (fun a => (a.1, g2v (lastCam s.camera ms) a.2))
        recomputeLog := s.recomputeLog ++ [s.camera, lastCam s.camera ms] } := by
  show overlayRun g2v anchors (updateLabelPositions g2v anchors s)
      (ms.map CamEvent.mutate ++ [CamEvent.render]) = _
  rw [overlayRun_append, overlayRun_mutations]
  simp [overlayRun, overlayStep, updateLabelPositions]

/-- C3: with hover on A, selection on B, A ≠ B and B not a neighbor of A,
the node reducer still outputs `highlighted = true` for B: selection
overrides hover-dimming. -/
theorem claim3_selection_overrides_hover (g : Graph) (st : State) (A B : String)
    (d : NodeData) (hA : st.hoveredNode = some A) (hB : st.selectedNode = some B)
    (hAB : A ≠ B) (hnb : st.hoveredNeighbors = some (g.neighbors A))
    (hBnb : (g.neighbors A).contains B = false) :
    (nodeReducer st B d).highlighted = true := by
  rw [nodeReducer_eq]
  simp [hB]

/-- Witness for C3: on the fixture graph, hover `n1`, select `n3`
(`n3` is not a neighbor of `n1`): `n3` is still highlighted. -/
theorem claim3_witness : (nodeReducer stHovSel "n3" nAlan).highlighted = true :=
  claim3_selection_overrides_hover gFix stHovSel "n1" "n3" nAlan
    (by decide) (by decide) (by decide) (by decide) (by decide)

/-- C4 counterexample: after `n1` is removed from the store (`gRem`), the
reducers with the stale hover reference do NOT behave as if the reference
were null: the retained neighbor set keeps dimming `n3`, and the edge
reducer hides the surviving edge `e2`, while the null-hover state does
neither. -/
theorem claim4_counterexample :
    gRem.hasNode "n1" = false
    ∧ nodeReducer stHoverN1 "n3" nAlan ≠
        nodeReducer { stHoverN1 with hoveredNode := none, hoveredNeighbors := none }
          "n3" nAlan
    ∧ edgeReducer gRem stHoverN1 "e2" deFix = .ok rFix
    ∧ edgeReducer gRem
          { stHoverN1 with hoveredNode := none, hoveredNeighbors := none }
          "e2" deFix = .ok deFix := by
  refine ⟨by rfl, by decide, by rfl, by rfl⟩

/-- C4 (amended): invoking the reducers on a remaining entity never throws,
and a stale `selectedEntityId` behaves exactly as a cleared selection — but a
stale `hoveredEntityId` does not (see the counterexample). -/
theorem claim4_stale_reference (g : Graph) (st : State) (node edge B : String)
    (dn : NodeData) (de : EdgeData) (s t : String)
    (he : g.findEdge edge = some (s, t)) (hs : g.hasNode s = true)
    (ht : g.hasNode t = true) (hB : st.selectedNode = some B)
    (hnode : node ≠ B) :
    (∃ r, edgeReducer g st edge de = .ok r)
    ∧ nodeReducer st node dn =
        nodeReducer { st with selectedNode := none } node dn
    ∧ edgeReducer g { st with selectedNode := none } edge de =
        edgeReducer g st edge de := by
  refine ⟨⟨_, edgeReducer_eq g st edge de s t he hs ht⟩, ?_, rfl⟩
  unfold nodeReducer
  have h1 : (st.selectedNode == some node) = false := by
    rw [hB]
    simp [Ne.symm hnode]
  cases st.hoveredNeighbors <;> cases st.suggestions <;> simp [h1]

/-- Witness for C4 at a concrete input: on `gRem` with hover and selection
still pointing at the removed `n1`, the edge reducer succeeds on `e2` and the
node reducer treats the stale selection as cleared. -/
theorem claim4_witness :
    (∃ r, edgeReducer gRem stStaleFull "e2" deFix = .ok r)
    ∧ nodeReducer stStaleFull "n2" nBob =
        nodeReducer { stStaleFull with selectedNode := none } "n2" nBob :=
  ⟨(claim4_stale_reference gRem stStaleFull "n2" "e2" "n1" nBob deFix "n2" "n3"
      (by rfl) (by rfl) (by rfl) (by rfl) (by decide)).1,
   (claim4_stale_reference gRem stStaleFull "n2" "e2" "n1" nBob deFix "n2" "n3"
      (by rfl) (by rfl) (by rfl) (by rfl) (by decide)).2.1⟩

/-- C5 counterexample: with hover on `n1` (no suggestions), the edge
`e2 = (n2, n3)` has an endpoint (`n2`) that IS adjacent to the hovered node,
so the claim's "neither endpoint" condition is false and it predicts the base
value `hidden = false`; the code nevertheless hides the edge because the
OTHER endpoint fails the test. -/
theorem claim5_counterexample :
    edgeReducer gFix stHoverN1 "e2" deFix = .ok rFix
    ∧ rFix.hidden = true
    ∧ deFix.hidden = false
    ∧ gFix.adjacent "n2" "n1" = true
    ∧ stHoverN1.hoveredNode = some "n1"
    ∧ stHoverN1.suggestions = none := by
  refine ⟨by rfl, by rfl, by rfl, by decide, by rfl, by rfl⟩

/-- C5 (amended): for an edge present in the store, `hidden` is set exactly
when the hovered id is truthy and AT LEAST ONE endpoint is neither the
hovered node nor adjacent to it, or when a suggestion set is present (even
empty) and at least one endpoint is outside it; otherwise `hidden` keeps its
base value. -/
theorem claim5_edge_hidden_rule (g : Graph) (st : State) (edge : String)
    (data : EdgeData) (s t : String) (he : g.findEdge edge = some (s, t))
    (hs : g.hasNode s = true) (ht : g.hasNode t = true) :
    edgeReducer g st edge data =
      .ok { data with
              hidden := hoverHideB g st s t || suggHideB st s t || data.hidden } :=
  edgeReducer_eq g st edge data s t he hs ht

/-- Witness for C5 at a concrete input: the edge `e1` incident to the hovered
node `n1` stays visible. -/
theorem claim5_witness :
    edgeReducer gFix stHoverN1 "e1" deFix =
      .ok { deFix with
              hidden := hoverHideB gFix stHoverN1 "n1" "n2"
                || suggHideB stHoverN1 "n1" "n2" || deFix.hidden } :=
  claim5_edge_hidden_rule gFix stHoverN1 "e1" deFix "n1" "n2"
    (by rfl) (by rfl) (by rfl)

/-- C6 counterexample: hovering the isolated node `n4` stores an EMPTY
neighbor set, and the hover rule then dims every other node — contradicting
the claim that an empty neighbor set dims nothing. -/
theorem claim6_counterexample :
    stHoverSolo.hoveredNeighbors = some []
    ∧ (nodeReducer stHoverSolo "n1" nAlice).label = ""
    ∧ (nodeReducer stHoverSolo "n1" nAlice).color = "#f6f6f6"
    ∧ nAlice.label = "Alice"
    ∧ nAlice.color = "#ff0000" := by
  refine ⟨by rfl, by rfl, by rfl, by rfl, by rfl⟩

/-- C6 (amended): with no suggestion set interfering, the node reducer
applies the dim treatment exactly when a hover neighbor set is PRESENT
(possibly empty), the node is not in it, and the node is not the hovered
entity; when no neighbor set is stored, no node is dimmed by the hover
rule. -/
theorem claim6_hover_dim_rule (st : State) (node : String) (d : NodeData)
    (hns : st.suggestions = none) :
    (hoverDimB st node = true →
        (nodeReducer st node d).label = ""
        ∧ (nodeReducer st node d).color = "#f6f6f6")
    ∧ (hoverDimB st node = false →
        (nodeReducer st node d).label = d.label
        ∧ (nodeReducer st node d).color = d.color)
    ∧ (st.hoveredNeighbors = none → hoverDimB st node = false) := by
  have hsd : suggDimB st node = false := by simp [suggDimB, hns]
  refine ⟨fun h => ?_, fun h => ?_, fun h => ?_⟩
  · rw [nodeReducer_eq]; simp [h, hsd]
  · rw [nodeReducer_eq]; simp [h, hsd]
  · simp [hoverDimB, h]

/-- Witness for C6 at a concrete input: hovering `n1` dims `n3` (not a
neighbor of `n1`). -/
theorem claim6_witness :
    (nodeReducer stHoverN1 "n3" nAlan).label = ""
    ∧ (nodeReducer stHoverN1 "n3" nAlan).color = "#f6f6f6" :=
  (claim6_hover_dim_rule stHoverN1 "n3" nAlan (by rfl)).1 (by decide)

/-- C7 counterexample: a query with no matches (`"zzz"`) stores an EMPTY
suggestion set, and the suggestion rule then dims every non-selected node —
contradicting the claim that an empty suggestion set changes nothing. -/
theorem claim7_counterexample :
    stNoMatch.suggestions = some []
    ∧ stNoMatch.selectedNode = none
    ∧ (nodeReducer stNoMatch "n1" nAlice).label = ""
    ∧ (nodeReducer stNoMatch "n1" nAlice).color = "#f6f6f6"
    ∧ nAlice.label = "Alice" := by
  refine ⟨by rfl, by rfl, by rfl, by rfl, by rfl⟩

/-- C7 (amended): for a non-selected node, when a suggestion set is PRESENT
(possibly empty) the reducer forces the label of nodes in the set and dims
nodes outside it; when no suggestion set is stored the rule changes nothing
(labels and colors are governed by the hover rule alone and `forceLabel`
keeps its base value). -/
theorem claim7_suggestion_rule (st : State) (node : String) (d : NodeData)
    (hsel : st.selectedNode ≠ some node) :
    (∀ sugg, st.suggestions = some sugg →
        (node ∈ sugg → (nodeReducer st node d).forceLabel = true)
        ∧ (node ∉ sugg →
            (nodeReducer st node d).label = ""
            ∧ (nodeReducer st node d).color = "#f6f6f6"))
    ∧ (st.suggestions = none →
        (nodeReducer st node d).forceLabel = d.forceLabel
        ∧ (nodeReducer st node d).label =
            (if hoverDimB st node = true then "" else d.label)
        ∧ (nodeReducer st node d).color =
            (if hoverDimB st node = true then "#f6f6f6" else d.color)) := by
  have hb : (st.selectedNode == some node) = false := by simp [hsel]
  have hbn : (st.selectedNode != some node) = true := by simp [bne, hb]
  constructor
  · intro sugg hsg
    constructor
    · intro hm
      rw [nodeReducer_eq]
      simp [suggForceB, hbn, hsg, hm]
    · intro hm
      rw [nodeReducer_eq]
      simp [suggDimB, hbn, hsg, hm]
  · intro hsg
    refine ⟨?_, ?_, ?_⟩ <;>
    · rw [nodeReducer_eq]
      simp [suggForceB, suggDimB, hsg]

/-- Witness for C7 (Scenario B): searching `"al"` suggests Alice (`n1`) and
Alan (`n3`); Alan gets a forced label, Bob (`n2`) is dimmed. -/
theorem claim7_witness :
    stAl.suggestions = some ["n1", "n3"]
    ∧ (nodeReducer stAl "n3" nAlan).forceLabel = true
    ∧ (nodeReducer stAl "n2" nBob).label = "" := by
  refine ⟨by rfl, ?_, ?_⟩
  · exact ((claim7_suggestion_rule stAl "n3" nAlan (by decide)).1
      ["n1", "n3"] (by rfl)).1 (by decide)
  · exact (((claim7_suggestion_rule stAl "n2" nBob (by decide)).1
      ["n1", "n3"] (by rfl)).2 (by decide)).1

/-- C8 counterexample: the query "Alice" case-insensitively matches exactly
the label of `n1`, yet `handleSearchQuery` stores NO suggestion set (the
unique match is exact, so the selection branch clears it) — not the
singleton set containing `n1`. -/
theorem claim8_counterexample :
    strIncludes (lcString nAlice.label) (lcString "Alice") = true
    ∧ (handleSearchQuery gFix State.init "Alice").1.suggestions = none
    ∧ (handleSearchQuery gFix State.init "Alice").1.suggestions ≠ some ["n1"] := by
  refine ⟨by rfl, by rfl, by decide⟩

/-- C8 (amended): an empty query stores no suggestion set, and a non-empty
query that is NOT a single exact match stores exactly the ids whose label
contains the query case-insensitively; a single exact match stores no
suggestion set (the node is selected instead — see C10). -/
theorem claim8_search_suggestions (g : Graph) (prev : State) (query : String)
    (hq : query ≠ "") (hnp : isPerfectMatch g query = false) :
    (handleSearchQuery g prev "").1.suggestions = none
    ∧ ∃ S, (handleSearchQuery g prev query).1.suggestions = some S
        ∧ ∀ id, id ∈ S ↔ ∃ nd, (id, nd) ∈ g.nodes
            ∧ strIncludes (lcString nd.label) (lcString query) = true := by
  constructor
  · rfl
  · refine ⟨(matchingNodes g (lcString query)).map (fun p => p.1), ?_, ?_⟩
    · unfold handleSearchQuery
      cases hm : matchingNodes g (lcString query) with
      | nil => simp [hq, hm]
      | cons m rest =>
        cases rest with
        | nil =>
          by_cases hl : m.2.label = query
          · exfalso
            have h := hnp
            unfold isPerfectMatch at h
            rw [hm] at h
            simp [hl] at h
          · simp [hq, hm, hl]
        | cons m2 rest2 => simp [hq, hm]
    · intro id
      unfold matchingNodes
      constructor
      · intro hmem
        rcases List.mem_map.1 hmem with ⟨p, hp, rfl⟩
        rcases List.mem_filter.1 hp with ⟨hpg, hpf⟩
        exact ⟨p.2, hpg, hpf⟩
      · rintro ⟨nd, hmem, hinc⟩
        exact List.mem_map.2 ⟨(id, nd), List.mem_filter.2 ⟨hmem, hinc⟩, rfl⟩

/-- Witness for C8 at a concrete input: the empty query and the Scenario B
query `"al"` on the fixture graph. -/
theorem claim8_witness :
    (handleSearchQuery gFix State.init "").1.suggestions = none
    ∧ ∃ S, (handleSearchQuery gFix State.init "al").1.suggestions = some S
        ∧ ∀ id, id ∈ S ↔ ∃ nd, (id, nd) ∈ gFix.nodes
            ∧ strIncludes (lcString nd.label) (lcString "al") = true :=
  claim8_search_suggestions gFix State.init "al" (by decide) (by rfl)

/-- C9 counterexample: `setSearchQuery` does NOT leave the selection axis
unchanged — a no-match query wipes an existing selection. -/
theorem claim9_counterexample :
    stSel3.selectedNode = some "n3"
    ∧ (handleSearchQuery gFix stSel3 "zzz").1.selectedNode = none := by
  refine ⟨by rfl, by rfl⟩

/-- C9 (amended): hovering (or clearing hover) leaves the selection and
search axes untouched, and searching leaves the hover axis untouched — but
searching rewrites the selection axis (it selects on a unique exact match
and clears the selection otherwise), so the three axes are NOT fully
independent. -/
theorem claim9_axis_independence (g : Graph) (prev : State)
    (node : Option String) (query : String) :
    ((handleHoveredNode g prev node).searchQuery = prev.searchQuery
      ∧ (handleHoveredNode g prev node).selectedNode = prev.selectedNode
      ∧ (handleHoveredNode g prev node).suggestions = prev.suggestions)
    ∧ ((handleSearchQuery g prev query).1.hoveredNode = prev.hoveredNode
      ∧ (handleSearchQuery g prev query).1.hoveredNeighbors = prev.hoveredNeighbors) := by
  constructor
  · unfold handleHoveredNode
    cases node with
    | none => exact ⟨rfl, rfl, rfl⟩
    | some n => by_cases h : n = "" <;> simp [h]
  · unfold handleSearchQuery
    by_cases hq : query = ""
    · simp [hq]
    · cases hm : matchingNodes g (lcString query) with
      | nil => simp [hq, hm]
      | cons m rest =>
        cases rest with
        | nil => by_cases hl : m.2.label = query <;> simp [hq, hm, hl]
        | cons m2 rest2 => simp [hq, hm]

/-- C10: when exactly one label contains the query case-insensitively and
that label equals the query, `handleSearchQuery` selects that node, stores no
suggestion set, and starts a camera animation to the node's display
position; every other non-empty query clears the selection. -/
theorem claim10_perfect_match (g : Graph) (prev : State) (query : String)
    (m : String × NodeData) (hq : query ≠ "")
    (hm : matchingNodes g (lcString query) = [m]) (hl : m.2.label = query) :
    handleSearchQuery g prev query =
      ({ prev with
          searchQuery := query
          selectedNode := some m.1
          suggestions := none },
       some (m.2.x, m.2.y))
    ∧ ∀ q2, q2 ≠ "" → isPerfectMatch g q2 = false →
        (handleSearchQuery g prev q2).1.selectedNode = none := by
  constructor
  · unfold handleSearchQuery
    simp [hq, hm, hl]
  · intro q2 hq2 hnp
    unfold handleSearchQuery
    cases hm2 : matchingNodes g (lcString q2) with
    | nil => simp [hq2, hm2]
    | cons m2 rest =>
      cases rest with
      | nil =>
        by_cases hl2 : m2.2.label = q2
        · exfalso
          have h := hnp
          unfold isPerfectMatch at h
          rw [hm2] at h
          simp [hl2] at h
        · simp [hq2, hm2, hl2]
      | cons m3 rest3 => simp [hq2, hm2]

/-- Witness for C10 at a concrete input: searching "Alice" selects `n1` and
animates the camera to its position `(10, 20)`; the no-match query `"zzz"`
clears the selection. -/
theorem claim10_witness :
    handleSearchQuery gFix State.init "Alice" =
      ({ State.init with
          searchQuery := "Alice"
          selectedNode := some "n1"
          suggestions := none },
       some (10, 20))
    ∧ (handleSearchQuery gFix State.init "zzz").1.selectedNode = none := by
  have h := claim10_perfect_match gFix State.init "Alice" ("n1", nAlice)
    (by decide) (by rfl) (by rfl)
  exact ⟨h.1, h.2 "zzz" (by decide) (by rfl)⟩

end SigmaExamples
